import Mathlib

/-!
Verification development for TimeLeapMemo (src/TimeLeapMemo.py), a PyQt6 +
moderngl drawing application in which ink strokes fade according to a
homeostatic forgetting process driven by a scrubbable virtual time.

The Python source is shallowly embedded.  Numeric float values are idealized
as elements of a linearly ordered field: definitions that need only field
arithmetic and order (stroke storage, JSON snapshot export and restore,
the homeostatic controller, world-line segmentation) are stated generically
over `[LinearOrderedField α]`, so that they are executable at `α := ℚ` and
apply at `α := ℝ`; definitions that use `math.exp` or `math.hypot`
(the decay engine and the density rasterizer) are stated at `ℝ` with
`Real.exp` and `Real.sqrt`.

GPU state (moderngl context, framebuffer, shader program), Qt widget handles,
timers and callbacks are out of scope; the one observable bit of timer state
(whether the free-hand drawing clock is running) is kept as a `Bool` field,
and the GPU rasterize/read-back round trip is abstracted as an arbitrary
read-back buffer `buf : ℕ → ℝ` (the alpha channel of the density texture),
since the claims about density depend only on the clipping, averaging and
empty-geometry handling applied to that buffer.
-/

/-- The stroke data model of `class Stroke` (src/TimeLeapMemo.py lines 50-57):
an ordered point list `(x, y, pressure)`, a stroke width, an RGB color, the
virtual time of creation, the dynamic forgetting alpha (Python default `1.0`)
and the retirement/visibility optimization flag (Python default `True`).
Construction sites pass the defaults explicitly. -/
structure Stroke (α : Type) where
  points : List (α × α × α)
  width : α
  color : α × α × α
  time_created : α
  base_alpha : α
  is_visible : Bool
  deriving DecidableEq

/-- The mutable state of `class GLCanvas` (src/TimeLeapMemo.py lines 66-99)
that the algorithmic methods read and write: the stroke store, the
in-progress point list, the homeostasis parameters, the controller output
`lambdas_factor`, and the virtual-time registers.  `timer_running` models
whether the free-hand drawing clock `self.timer` (a QTimer) is active.
GPU handles, Qt callbacks and the highlight list are omitted as out of
scope. -/
structure GLCanvas (α : Type) where
  strokes : List (Stroke α)
  current_points : List (α × α × α)
  target_density : α
  hysteresis : α
  lambda_base : α
  lambda_k : α
  lambdas_factor : α
  virtual_time : α
  max_virtual_time : α
  last_virtual_time : α
  timer_running : Bool
  deriving DecidableEq

/-- The field values set in `GLCanvas.__init__` (src/TimeLeapMemo.py lines
71-99): empty stroke store, `target_density = 0.05`, `hysteresis = 0.02`,
`lambda_base = 0.1`, `lambda_k = 3.0`, `lambdas_factor = 1.0`, all time
registers zero, drawing clock stopped. -/
def GLCanvas.init {α : Type} [LinearOrderedField α] : GLCanvas α where
  strokes := []
  current_points := []
  target_density := 0.05
  hysteresis := 0.02
  lambda_base := 0.1
  lambda_k := 3
  lambdas_factor := 1
  virtual_time := 0
  max_virtual_time := 0
  last_virtual_time := 0
  timer_running := false

/-- A parsed JSON document, as `json.loads` would return it: the shape that
`export_strokes_json` emits and `import_strokes_json` consumes.  Object
fields are the key/value pairs of the parsed dict (keys distinct, as
`json.loads` deduplicates them). -/
inductive JValue (α : Type) where
  | num (x : α)
  | str (s : String)
  | bool (b : Bool)
  | null
  | arr (items : List (JValue α))
  | obj (fields : List (String × JValue α))

/-- Dictionary lookup on a parsed JSON object's field list. -/
def jlookup {α : Type} (k : String) : List (String × JValue α) → Option (JValue α)
  | [] => none
  | (k', v) :: rest => if k' = k then some v else jlookup k rest

/-- A JSON value read as a number; any other shape is a decode failure
(the typed state cannot hold a non-numeric value where Python would have
stored one and crashed on first arithmetic use). -/
def asNum? {α : Type} : JValue α → Option α
  | .num x => some x
  | _ => none

/-- A JSON value read as an array; iterating any other shape fails. -/
def asArr? {α : Type} : JValue α → Option (List (JValue α))
  | .arr xs => some xs
  | _ => none

/-- The semantics of a Python list comprehension `[f(x) for x in l]` whose
body can raise: elements are produced left to right and the first failure
aborts the whole comprehension with nothing assigned. -/
def mapOpt {β γ : Type} (f : β → Option γ) : List β → Option (List γ)
  | [] => some []
  | x :: xs =>
    match f x with
    | none => none
    | some y =>
      match mapOpt f xs with
      | none => none
      | some ys => some (y :: ys)

/-- `max(l, default=dflt)` of Python: the greatest element of `l`, or `dflt`
when `l` is empty (the default takes no part in a non-empty maximum). -/
def listMaxD {α : Type} [LinearOrder α] (l : List α) (dflt : α) : α :=
  match l with
  | [] => dflt
  | x :: xs => xs.foldl max x

/-- One sample point serialized as `json.dumps` renders a 3-tuple. -/
def pointToJson {α : Type} (p : α × α × α) : JValue α :=
  .arr [.num p.1, .num p.2.1, .num p.2.2]

/-- One stroke serialized as the dict literal of `export_strokes_json`
(src/TimeLeapMemo.py lines 299-308): keys `points`, `width`, `color`,
`time_created`, `base_alpha`; the retirement flag is not persisted. -/
def strokeToJson {α : Type} (s : Stroke α) : JValue α :=
  .obj [("points", .arr (s.points.map pointToJson)),
        ("width", .num s.width),
        ("color", .arr [.num s.color.1, .num s.color.2.1, .num s.color.2.2]),
        ("time_created", .num s.time_created),
        ("base_alpha", .num s.base_alpha)]

/-- `GLCanvas.export_strokes_json` (src/TimeLeapMemo.py lines 295-310): the
snapshot document holding `virtual_time` and the stroke list in commit
order. -/
def GLCanvas.export_strokes_json {α : Type} (st : GLCanvas α) : JValue α :=
  .obj [("virtual_time", .num st.virtual_time),
        ("strokes", .arr (st.strokes.map strokeToJson))]

/-- Decode of one serialized point: `tuple(p)` over a 3-element numeric
array. -/
def jsonToPoint? {α : Type} : JValue α → Option (α × α × α)
  | .arr [.num x, .num y, .num p] => some (x, y, p)
  | _ => none

/-- Decode of a serialized color: `tuple(d["color"])` over a 3-element
numeric array. -/
def jsonToColor? {α : Type} : JValue α → Option (α × α × α)
  | .arr [.num r, .num g, .num b] => some (r, g, b)
  | _ => none

/-- `s["time_created"]` for a stroke entry, as read by the high-water-mark
computation of `import_strokes_json` (src/TimeLeapMemo.py line 316):
a `KeyError` on a missing key or a non-dict entry is a failure. -/
def strokeTime? {α : Type} : JValue α → Option α
  | .obj fields =>
    match jlookup "time_created" fields with
    | some v => asNum? v
    | none => none
  | _ => none

/-- Decode of one stroke entry, as the list comprehension of
`import_strokes_json` (src/TimeLeapMemo.py lines 317-326) rebuilds it:
required keys `points`, `width`, `color`, `time_created`; `base_alpha`
defaults to `1.0` when absent; `is_visible` is not read from the snapshot
and takes the dataclass default `True`. -/
def jsonToStroke? {α : Type} [LinearOrderedField α] : JValue α → Option (Stroke α)
  | .obj fields => do
    let pjs ← (jlookup "points" fields).bind asArr?
    let pts ← mapOpt jsonToPoint? pjs
    let w ← (jlookup "width" fields).bind asNum?
    let col ← (jlookup "color" fields).bind jsonToColor?
    let tc ← (jlookup "time_created" fields).bind asNum?
    let ba ← match jlookup "base_alpha" fields with
             | none => some 1
             | some v => asNum? v
    pure { points := pts, width := w, color := col, time_created := tc,
           base_alpha := ba, is_visible := true }
  | _ => none

/-- `GLCanvas.import_strokes_json` (src/TimeLeapMemo.py lines 312-327) with
its sequential assignment semantics made explicit.  The input `none` models
a string `json.loads` rejects: the exception propagates before any
assignment.  Otherwise the method assigns `self.virtual_time`, then
`self.max_virtual_time`, then `self.strokes`, and an exception raised while
computing a right-hand side leaves the assignments made so far in place.
The returned `Bool` is `true` when the method runs to completion and
`false` when it raises partway, with the first component the state as
mutated up to that point. -/
def GLCanvas.import_strokes_json {α : Type} [LinearOrderedField α]
    (j : Option (JValue α)) (st : GLCanvas α) : GLCanvas α × Bool :=
  match j with
  | none => (st, false)
  | some (.obj fields) =>
    match (match jlookup "virtual_time" fields with
           | none => some (0 : α)
           | some v => asNum? v) with
    | none => (st, false)
    | some vt =>
      let st1 := { st with virtual_time := vt }
      match (match jlookup "strokes" fields with
             | none => some ([] : List (JValue α))
             | some v => asArr? v) with
      | none => (st1, false)
      | some sjs =>
        match mapOpt strokeTime? sjs with
        | none => (st1, false)
        | some times =>
          let st2 := { st1 with max_virtual_time := max vt (listMaxD times 0) }
          match mapOpt jsonToStroke? sjs with
          | none => (st2, false)
          | some ss => ({ st2 with strokes := ss }, true)
  | some _ => (st, false)

/-- `GLCanvas.mouseReleaseEvent` (src/TimeLeapMemo.py lines 149-157): on a
left-button release with at least two accumulated points, commit the
in-progress points as one `Stroke` with `width = 6.0`, `color = (0, 0, 0)`
and `time_created = self.virtual_time`, clear the in-progress list, bump the
`max_virtual_time` high-water mark, and stop the drawing clock; with fewer
than two points (or a non-left button) the handler does nothing at all. -/
def GLCanvas.mouseReleaseEvent {α : Type} [LinearOrderedField α]
    (left_button : Bool) (st : GLCanvas α) : GLCanvas α :=
  if left_button = true ∧ 2 ≤ st.current_points.length then
    { st with
      strokes := st.strokes ++
        [{ points := st.current_points, width := 6, color := (0, 0, 0),
           time_created := st.virtual_time, base_alpha := 1, is_visible := true }],
      current_points := [],
      max_virtual_time :=
        if st.max_virtual_time < st.virtual_time then st.virtual_time
        else st.max_virtual_time,
      timer_running := false }
  else st

/-- The homeostatic controller law inlined in `GLCanvas.paintEvent`
(src/TimeLeapMemo.py lines 223-226): `error = density - target_density`,
dead-zone `gain = 0` when `|error| < hysteresis` and `gain = error`
otherwise, `lambdas_factor = 1 + lambda_k * gain` clamped into
`[0.1, 4.0]`.  The previous factor is not an input: each update is a pure
function of the current density sample and the configured constants. -/
def controller_update {α : Type} [LinearOrderedField α]
    (target_density hysteresis lambda_k density : α) : α :=
  let error := density - target_density
  let gain := if |error| < hysteresis then 0 else error
  max 0.1 (min 4 (1 + lambda_k * gain))

/-- The rewind-detection scan at the top of `GLCanvas.paintEvent`
(src/TimeLeapMemo.py lines 213-216): when the current frame's virtual time
is less than the previous frame's, every stroke's retirement flag is
cleared unconditionally before decay is recomputed. -/
def GLCanvas.rewind_check {α : Type} [LinearOrderedField α]
    (st : GLCanvas α) : GLCanvas α :=
  if st.virtual_time < st.last_virtual_time then
    { st with strokes := st.strokes.map (fun s => { s with is_visible := true }) }
  else st

/-- The per-stroke decay step of the loop in `GLCanvas.paintEvent`
(src/TimeLeapMemo.py lines 229-245): a retired stroke is skipped; a stroke
not yet created at the current virtual time (`age < 0`) gets alpha `0` but
stays eligible; otherwise `alpha = exp(-lam * age)` with
`lam = lambda_base * lambdas_factor`, and an alpha below the `0.001` floor
zeroes the alpha and sets the retirement flag. -/
noncomputable def decay_stroke (lam now : ℝ) (s : Stroke ℝ) : Stroke ℝ :=
  if s.is_visible = false then s
  else
    let age := now - s.time_created
    if age < 0 then { s with base_alpha := 0 }
    else
      let a := Real.exp (-(lam * age))
      if a < 0.001 then { s with base_alpha := 0, is_visible := false }
      else { s with base_alpha := a }

/-- The controller-and-decay tail of `GLCanvas.paintEvent`
(src/TimeLeapMemo.py lines 222-247), after rewind handling and density
measurement: update `lambdas_factor` from the density sample, decay every
stroke with `lam = lambda_base * lambdas_factor` at `now = virtual_time`,
and record `last_virtual_time = now` for the next frame's rewind check. -/
noncomputable def GLCanvas.frame_update (density : ℝ) (st : GLCanvas ℝ) : GLCanvas ℝ :=
  let f := controller_update st.target_density st.hysteresis st.lambda_k density
  let now := st.virtual_time
  let lam := st.lambda_base * f
  { st with
    lambdas_factor := f,
    strokes := st.strokes.map (decay_stroke lam now),
    last_virtual_time := now }

/-- Vertex generation for the consecutive point pairs of one stroke, from
`GLCanvas.render_density_map` (src/TimeLeapMemo.py lines 172-195): each
segment of length at least `1e-6` (by `math.hypot`) is expanded into two
triangles of a width-`2*half_w` quadrilateral in normalized device
coordinates; shorter segments are skipped. -/
noncomputable def seg_verts (cw ch half_w : ℝ) : List (ℝ × ℝ × ℝ) → List ℝ
  | (x0, y0, _) :: (x1, y1, p1) :: rest =>
    (let dx := x1 - x0
     let dy := y1 - y0
     let seg_len := Real.sqrt (dx * dx + dy * dy)
     if seg_len < 1e-6 then []
     else
       let nx := -dy / seg_len
       let ny := dx / seg_len
       let u0 := x0 / cw
       let v0 := 1 - y0 / ch
       let u1 := x1 / cw
       let v1 := 1 - y1 / ch
       let a0x := u0 * 2 - 1
       let a0y := v0 * 2 - 1
       let a1x := u1 * 2 - 1
       let a1y := v1 * 2 - 1
       let hwx := half_w / cw * 2
       let hwy := half_w / ch * 2
       let ox := nx * hwx
       let oy := ny * hwy
       [a0x + ox, a0y + oy, a1x + ox, a1y + oy, a0x - ox, a0y - oy,
        a1x + ox, a1y + oy, a1x - ox, a1y - oy, a0x - ox, a0y - oy]) ++
    seg_verts cw ch half_w ((x1, y1, p1) :: rest)
  | _ => []

/-- The geometry pre-filter and vertex accumulation of
`GLCanvas.render_density_map` (src/TimeLeapMemo.py lines 163-195): strokes
that are retired, created after the current virtual time, or have fewer
than two points are excluded before rasterization. -/
noncomputable def render_verts (cw ch vt : ℝ) (strokes : List (Stroke ℝ)) : List ℝ :=
  strokes.foldr
    (fun s acc =>
      (if s.is_visible = false then []
       else if vt < s.time_created then []
       else if s.points.length < 2 then []
       else seg_verts cw ch (s.width / 2) s.points) ++ acc)
    []

/-- The density texture resolution fixed in `GLCanvas.__init__`
(src/TimeLeapMemo.py line 67). -/
def density_w : ℕ := 128

/-- The density texture resolution fixed in `GLCanvas.__init__`
(src/TimeLeapMemo.py line 67). -/
def density_h : ℕ := 96

/-- `GLCanvas.render_density_map` (src/TimeLeapMemo.py lines 159-210):
`None` when no vertices survive the pre-filter, otherwise the read-back
alpha channel of the `density_h x density_w` texture clipped per cell into
`[0, 1]`.  The GPU rasterize/read-back round trip is abstracted as the
arbitrary buffer `buf` (cell index to alpha value): every claim about the
returned density holds for any buffer contents. -/
noncomputable def render_density_map (buf : ℕ → ℝ) (cw ch vt : ℝ)
    (strokes : List (Stroke ℝ)) : Option (List ℝ) :=
  if (render_verts cw ch vt strokes).isEmpty then none
  else some ((List.range (density_h * density_w)).map (fun i => max 0 (min (buf i) 1)))

/-- The density reduction in `GLCanvas.paintEvent` (src/TimeLeapMemo.py line
222): `float(np.mean(density))` when the map was rendered, else `0.0`. -/
noncomputable def global_density (o : Option (List ℝ)) : ℝ :=
  match o with
  | none => 0
  | some cells => cells.sum / (cells.length : ℝ)

/-- The state transition of one full `GLCanvas.paintEvent` frame
(src/TimeLeapMemo.py lines 212-247), with Qt painting elided: rewind
detection and resurrection first, then density measurement over the
surviving strokes, then the controller update and decay pass. -/
noncomputable def GLCanvas.paintEventStep (buf : ℕ → ℝ) (cw ch : ℝ)
    (st : GLCanvas ℝ) : GLCanvas ℝ :=
  let st1 := GLCanvas.rewind_check st
  let density := global_density (render_density_map buf cw ch st1.virtual_time st1.strokes)
  GLCanvas.frame_update density st1

/-- The loop body of `TimelineWidget.calc_segments` (src/TimeLeapMemo.py
lines 366-380): scanning the remaining stroke times with the running index
`i`, the previous time and the indices of the segment being built, a time
strictly smaller than the previous one closes the current segment and
starts a new one; the final segment is appended after the loop. -/
def TimelineWidget.seg_loop {α : Type} [LinearOrder α] :
    List α → ℕ → α → List ℕ → List (List ℕ)
  | [], _, _, indices => [indices]
  | t :: rest, i, prev_time, indices =>
    if t < prev_time then
      indices :: TimelineWidget.seg_loop rest (i + 1) t [i]
    else
      TimelineWidget.seg_loop rest (i + 1) t (indices ++ [i])

/-- `TimelineWidget.calc_segments` (src/TimeLeapMemo.py lines 360-380)
restricted to its `segment_indices` output: the world-line segmentation of
the ordered stroke creation times (the parallel `segment_ys` list is pure
layout).  An empty time list yields no segments. -/
def TimelineWidget.calc_segments {α : Type} [LinearOrder α]
    (stroke_times : List α) : List (List ℕ) :=
  match stroke_times with
  | [] => []
  | t0 :: rest => TimelineWidget.seg_loop rest 1 t0 [0]

/-- Modelled from the spec: the list of positions at which a new world line
starts because the time there is strictly smaller than its predecessor
("a strictly smaller next time starts a new segment (world line)").
`spec_run_starts prev rest i` scans `rest` with `prev` the time at position
`i - 1`, collecting each position whose time drops strictly below the one
before it.  This is the specification-side description against which the
segment heads of `TimelineWidget.calc_segments` are checked. -/
def spec_run_starts {α : Type} [LinearOrder α] : α → List α → ℕ → List ℕ
  | _, [], _ => []
  | prev, t :: rest, i =>
    if t < prev then i :: spec_run_starts t rest (i + 1)
    else spec_run_starts t rest (i + 1)

/-! ### Concrete states and snapshots used by the counterexamples and witnesses -/

/-- A canvas whose controller output from some earlier frame was 2.0
(reachable, e.g., from a density sample of `0.05 + 1/3`). -/
noncomputable def stFactorTwo : GLCanvas ℝ := { GLCanvas.init with lambdas_factor := 2 }

/-- A canvas holding one committed stroke, with all time registers at 7. -/
def stBefore : GLCanvas ℚ :=
  { GLCanvas.init with
    virtual_time := 7,
    last_virtual_time := 7,
    max_virtual_time := 7,
    strokes := [{ points := [(0, 0, 1), (1, 1, 1)], width := 6, color := (0, 0, 0),
                  time_created := 1, base_alpha := 1, is_visible := true }] }

/-- A snapshot that parses as JSON but whose stroke entry lacks the required
`time_created` key: the high-water-mark computation raises a `KeyError`
after `virtual_time` has already been assigned. -/
def missingTimeSnapshot : JValue ℚ :=
  .obj [("virtual_time", .num 99), ("strokes", .arr [.obj []])]

/-- A snapshot whose `strokes` value is a number, not a list: iterating it
fails after `virtual_time` has been assigned (its default `0.0`). -/
def notAListSnapshot : JValue ℚ := .obj [("strokes", .num 5)]

/-- A well-formed snapshot whose one stroke was exported fully decayed
(`base_alpha = 0`). -/
def alphaZeroSnapshot : JValue ℚ :=
  .obj [("virtual_time", .num 0),
        ("strokes", .arr [.obj [("points", .arr [.arr [.num 0, .num 0, .num 1],
                                                 .arr [.num 1, .num 1, .num 1]]),
                                ("width", .num 6),
                                ("color", .arr [.num 0, .num 0, .num 0]),
                                ("time_created", .num 3),
                                ("base_alpha", .num 0)]])]

/-- A canvas with a single accumulated in-progress point. -/
def stOnePoint : GLCanvas ℚ := { GLCanvas.init with current_points := [(3, 4, 1)] }

/-- A canvas with two accumulated in-progress points at virtual time 5. -/
def stTwoPoints : GLCanvas ℚ :=
  { GLCanvas.init with current_points := [(0, 0, 1), (1, 2, 1)], virtual_time := 5 }

/-- A canvas with one stroke (partly decayed and retired) at virtual time 2,
used to exercise the export/import round trip. -/
def stRound : GLCanvas ℚ :=
  { GLCanvas.init with
    virtual_time := 2,
    strokes := [{ points := [(0, 1, 1), (2, 3, 1)], width := 6, color := (0, 0, 0),
                  time_created := 1, base_alpha := 0.5, is_visible := false }] }

/-- A visible stroke created at virtual time 0. -/
noncomputable def strokeW8 : Stroke ℝ :=
  { points := [], width := 6, color := (0, 0, 0), time_created := 0,
    base_alpha := 1, is_visible := true }

/-- A read-back buffer whose every cell is 0. -/
noncomputable def bufZero : ℕ → ℝ := fun _ => 0

/-- A canvas whose one stroke has retired (`base_alpha = 0`,
`is_visible = false`) while the previous frame ran at virtual time 100, and
whose virtual time has been seeked back to the stroke's creation time 0. -/
noncomputable def stRetired : GLCanvas ℝ :=
  { GLCanvas.init with
    strokes := [{ points := [(0, 0, 1), (0, 0, 1)], width := 6, color := (0, 0, 0),
                  time_created := 0, base_alpha := 0, is_visible := false }],
    last_virtual_time := 100 }

/-! ### Helper lemmas -/

/-- The controller's output always lies in the clamp range `[0.1, 4]`. -/
theorem controller_update_mem {α : Type} [LinearOrderedField α] (t h k d : α) :
    0.1 ≤ controller_update t h k d ∧ controller_update t h k d ≤ 4 :=
  ⟨le_max_left _ _, max_le (by norm_num) (min_le_left _ _)⟩

/-- Inside the hysteresis dead zone the controller's output is exactly 1. -/
theorem controller_update_dead_zone {α : Type} [LinearOrderedField α] (t h k d : α)
    (hd : |d - t| < h) : controller_update t h k d = 1 := by
  have h0 : (if |d - t| < h then (0 : α) else d - t) = 0 := if_pos hd
  simp only [controller_update, h0, mul_zero, add_zero]
  rw [min_eq_right (by norm_num : (1 : α) ≤ 4), max_eq_right (by norm_num : (0.1 : α) ≤ 1)]

/-! ### The claims -/

/-- C5: the controller's `lambda_factor` is clamped into `[0.1, 4.0]` after
every update — for every density input (and every target, hysteresis and
gain) the resulting factor lies in that range, and so does the
`lambdas_factor` field written by a frame update; at the extremes,
`density = 1.0, target = 0.0, gain_k = 3.0` yields exactly `4.0` (upper
clamp) and the symmetric extreme `density = 0.0, target = 1.0` yields
exactly `0.1` (lower clamp). -/
theorem c5_lambda_factor_clamped :
    (∀ (α : Type) [inst : LinearOrderedField α] (t h k d : α),
        0.1 ≤ controller_update t h k d ∧ controller_update t h k d ≤ 4) ∧
    (∀ (density : ℝ) (st : GLCanvas ℝ),
        0.1 ≤ (GLCanvas.frame_update density st).lambdas_factor ∧
        (GLCanvas.frame_update density st).lambdas_factor ≤ 4) ∧
    controller_update (0 : ℝ) 0.02 3 1 = 4 ∧
    controller_update (1 : ℝ) 0.02 3 0 = 0.1 := by
  refine ⟨fun α inst t h k d => controller_update_mem t h k d,
          fun density st => controller_update_mem _ _ _ _, ?_, ?_⟩
  · have h0 : ¬ |(1 : ℝ) - 0| < 0.02 := by rw [abs_sub_lt_iff]; norm_num
    simp only [controller_update, if_neg h0]
    norm_num
  · have h0 : ¬ |(0 : ℝ) - 1| < 0.02 := by rw [abs_sub_lt_iff]; norm_num
    simp only [controller_update, if_neg h0]
    norm_num

/-- Witness for C5 at a concrete input: the clamp bounds at
`target = 0.05, hysteresis = 0.02, gain = 3, density = 0.5`. -/
theorem c5_witness :
    0.1 ≤ controller_update (0.05 : ℚ) 0.02 3 0.5 ∧
    controller_update (0.05 : ℚ) 0.02 3 0.5 ≤ 4 :=
  c5_lambda_factor_clamped.1 ℚ 0.05 0.02 3 0.5

/-- Counterexample to C2 as stated: with prior `lambdas_factor = 2` and a
density sample inside the dead zone (`|0.06 - 0.05| < 0.02`), the frame's
controller update does NOT leave `lambdas_factor` at its prior value — it
resets it to 1. -/
theorem c2_counterexample :
    |(0.06 : ℝ) - stFactorTwo.target_density| < stFactorTwo.hysteresis ∧
    (GLCanvas.frame_update 0.06 stFactorTwo).lambdas_factor ≠ stFactorTwo.lambdas_factor := by
  have hd : |(0.06 : ℝ) - stFactorTwo.target_density| < stFactorTwo.hysteresis := by
    rw [show stFactorTwo.target_density = 0.05 from rfl,
        show stFactorTwo.hysteresis = 0.02 from rfl, abs_sub_lt_iff]
    norm_num
  refine ⟨hd, ?_⟩
  have h1 : (GLCanvas.frame_update 0.06 stFactorTwo).lambdas_factor = 1 :=
    controller_update_dead_zone _ _ _ _ hd
  rw [h1]
  norm_num [stFactorTwo]

/-- C2 (amended): in the dead zone (`|density - target| < hysteresis`) the
controller applies no correction term — `lambda_factor` becomes exactly
`1.0` (the uncorrected base multiplier), independent of its value on the
previous frame; the same holds for the `lambdas_factor` field written by a
frame update. -/
theorem c2_dead_zone_resets_factor_to_one :
    (∀ (α : Type) [inst : LinearOrderedField α] (t h k d : α),
        |d - t| < h → controller_update t h k d = 1) ∧
    (∀ (density : ℝ) (st : GLCanvas ℝ),
        |density - st.target_density| < st.hysteresis →
        (GLCanvas.frame_update density st).lambdas_factor = 1) :=
  ⟨fun α inst t h k d hd => controller_update_dead_zone t h k d hd,
   fun density st hd => controller_update_dead_zone _ _ _ _ hd⟩

/-- Witness for C2 at the concrete input named by the spec:
`target = 0.05, hysteresis = 0.02, density = 0.06` gives factor exactly 1. -/
theorem c2_witness : controller_update (0.05 : ℝ) 0.02 3 0.06 = 1 :=
  c2_dead_zone_resets_factor_to_one.1 ℝ 0.05 0.02 3 0.06 (by rw [abs_sub_lt_iff]; norm_num)

/-- C9: a left-button release with fewer than two accumulated points is a
complete no-op on the canvas state (stroke list, in-progress points, time
registers and the drawing clock all unchanged); with at least two points it
appends exactly one stroke whose `time_created` is the current virtual
time, clears the in-progress points, and stops the drawing clock. -/
theorem c9_commit_requires_two_points (α : Type) [inst : LinearOrderedField α]
    (st : GLCanvas α) :
    (st.current_points.length < 2 → GLCanvas.mouseReleaseEvent true st = st) ∧
    (2 ≤ st.current_points.length →
      (GLCanvas.mouseReleaseEvent true st).strokes =
        st.strokes ++ [{ points := st.current_points, width := 6, color := (0, 0, 0),
                         time_created := st.virtual_time, base_alpha := 1,
                         is_visible := true }] ∧
      (GLCanvas.mouseReleaseEvent true st).current_points = [] ∧
      (GLCanvas.mouseReleaseEvent true st).virtual_time = st.virtual_time ∧
      (GLCanvas.mouseReleaseEvent true st).timer_running = false) := by
  constructor
  · intro h
    rw [GLCanvas.mouseReleaseEvent, if_neg]
    rintro ⟨-, h2⟩
    exact absurd h2 (not_le.mpr h)
  · intro h
    rw [GLCanvas.mouseReleaseEvent, if_pos ⟨rfl, h⟩]
    exact ⟨rfl, rfl, rfl, rfl⟩

/-- Witness for C9: a one-point release changes nothing at all, and a
two-point release at virtual time 5 commits exactly one stroke created at
time 5. -/
theorem c9_witness :
    GLCanvas.mouseReleaseEvent true stOnePoint = stOnePoint ∧
    (GLCanvas.mouseReleaseEvent true stTwoPoints).strokes =
      [{ points := [(0, 0, 1), (1, 2, 1)], width := 6, color := (0, 0, 0),
         time_created := 5, base_alpha := 1, is_visible := true }] ∧
    (GLCanvas.mouseReleaseEvent true stTwoPoints).current_points = [] := by
  refine ⟨(c9_commit_requires_two_points ℚ stOnePoint).1 (by decide), ?_, ?_⟩
  · have h := ((c9_commit_requires_two_points ℚ stTwoPoints).2 (by decide)).1
    rw [h]
    rfl
  · exact ((c9_commit_requires_two_points ℚ stTwoPoints).2 (by decide)).2.1

/-- Counterexample to C1 as stated: `missingTimeSnapshot` is malformed (its
stroke entry lacks `time_created`), the failing call reports failure, yet
`virtual_time` has been overwritten (7 became 99) — the import is not
atomic over the whole in-memory state. -/
theorem c1_counterexample :
    (GLCanvas.import_strokes_json (some missingTimeSnapshot) stBefore).2 = false ∧
    (GLCanvas.import_strokes_json (some missingTimeSnapshot) stBefore).1.virtual_time ≠
      stBefore.virtual_time := by decide

/-- C1 (amended): a snapshot string that does not parse, or whose top level
is not a JSON object, leaves the entire state unmodified and reports
failure; and every failing import, wherever it fails, leaves the stroke
store (the committed stroke list and the in-progress points) and the
rewind register unmodified and reports failure — only `virtual_time` and
`max_virtual_time` may already have been overwritten when a parseable
snapshot fails at a malformed stroke entry. -/
theorem c1_failure_leaves_stroke_store :
    (∀ (α : Type) [inst : LinearOrderedField α] (st : GLCanvas α),
        GLCanvas.import_strokes_json none st = (st, false)) ∧
    (∀ (α : Type) [inst : LinearOrderedField α] (j : JValue α) (st : GLCanvas α),
        (∀ fields, j ≠ JValue.obj fields) →
        GLCanvas.import_strokes_json (some j) st = (st, false)) ∧
    (∀ (α : Type) [inst : LinearOrderedField α] (j : Option (JValue α)) (st : GLCanvas α),
        (GLCanvas.import_strokes_json j st).2 = false →
          (GLCanvas.import_strokes_json j st).1.strokes = st.strokes ∧
          (GLCanvas.import_strokes_json j st).1.current_points = st.current_points ∧
          (GLCanvas.import_strokes_json j st).1.last_virtual_time = st.last_virtual_time) := by
  refine ⟨fun α inst st => rfl, fun α inst j st hj => ?_, fun α inst j st hfail => ?_⟩
  · cases j with
    | num x => rfl
    | str s => rfl
    | bool b => rfl
    | null => rfl
    | arr xs => rfl
    | obj fields => exact absurd rfl (hj fields)
  · cases j with
    | none => exact ⟨rfl, rfl, rfl⟩
    | some data =>
      cases data with
      | num x => exact ⟨rfl, rfl, rfl⟩
      | str s => exact ⟨rfl, rfl, rfl⟩
      | bool b => exact ⟨rfl, rfl, rfl⟩
      | null => exact ⟨rfl, rfl, rfl⟩
      | arr xs => exact ⟨rfl, rfl, rfl⟩
      | obj fields =>
        rw [GLCanvas.import_strokes_json] at hfail ⊢
        split at hfail
        · exact ⟨rfl, rfl, rfl⟩
        · split at hfail
          · exact ⟨rfl, rfl, rfl⟩
          · split at hfail
            · exact ⟨rfl, rfl, rfl⟩
            · split at hfail
              · exact ⟨rfl, rfl, rfl⟩
              · simp at hfail

/-- Witness for C1 (amended) at a concrete input: a snapshot whose
`strokes` value is not a list fails and leaves the stroke store unchanged. -/
theorem c1_witness :
    (GLCanvas.import_strokes_json (some notAListSnapshot) stBefore).2 = false ∧
    (GLCanvas.import_strokes_json (some notAListSnapshot) stBefore).1.strokes =
      stBefore.strokes :=
  ⟨by decide,
   (c1_failure_leaves_stroke_store.2.2 ℚ (some notAListSnapshot) stBefore (by decide)).1⟩

/-- Every stroke the decoder accepts carries `is_visible = true`: the
retirement flag is not persisted and the dataclass default applies. -/
theorem jsonToStroke?_is_visible {α : Type} [LinearOrderedField α] (j : JValue α)
    (s : Stroke α) (h : jsonToStroke? j = some s) : s.is_visible = true := by
  cases j with
  | num x => simp [jsonToStroke?] at h
  | str x => simp [jsonToStroke?] at h
  | bool x => simp [jsonToStroke?] at h
  | null => simp [jsonToStroke?] at h
  | arr xs => simp [jsonToStroke?] at h
  | obj fields =>
    simp only [jsonToStroke?, Option.bind_eq_bind, Option.bind_eq_some] at h
    obtain ⟨pjs, -, pts, -, w, -, col, -, tc, -, h⟩ := h
    split at h
    · simp only [Option.some_bind, Option.pure_def, Option.some.injEq] at h
      rw [← h]
    · simp only [Option.bind_eq_some, Option.pure_def, Option.some.injEq] at h
      obtain ⟨ba, -, h⟩ := h
      rw [← h]

/-- The stroke list a successful decode produces consists of strokes with
`is_visible = true` only. -/
theorem mapOpt_is_visible {α : Type} [LinearOrderedField α] (l : List (JValue α))
    (ss : List (Stroke α)) (h : mapOpt jsonToStroke? l = some ss) :
    ∀ s ∈ ss, s.is_visible = true := by
  induction l generalizing ss with
  | nil =>
    simp only [mapOpt, Option.some.injEq] at h
    subst h
    simp
  | cons x xs ih =>
    rw [mapOpt] at h
    split at h
    · exact absurd h (by simp)
    · rename_i s0 hs0
      split at h
      · exact absurd h (by simp)
      · rename_i ys hys
        simp only [Option.some.injEq] at h
        subst h
        intro s hs
        rcases List.mem_cons.mp hs with rfl | hmem
        · exact jsonToStroke?_is_visible x s hs0
        · exact ih ys hys s hmem

/-- C10: every stroke reconstructed by a successful import has its
retirement flag cleared (`is_visible = true`), whatever `base_alpha` the
snapshot stored — retirement state is not persisted, so even a stroke
exported with alpha 0 is eligible for decay recomputation after import. -/
theorem c10_imported_strokes_not_retired (α : Type) [inst : LinearOrderedField α]
    (j : Option (JValue α)) (st : GLCanvas α)
    (h : (GLCanvas.import_strokes_json j st).2 = true) :
    ∀ s ∈ (GLCanvas.import_strokes_json j st).1.strokes, s.is_visible = true := by
  cases j with
  | none => simp [GLCanvas.import_strokes_json] at h
  | some data =>
    cases data with
    | num x => simp [GLCanvas.import_strokes_json] at h
    | str x => simp [GLCanvas.import_strokes_json] at h
    | bool x => simp [GLCanvas.import_strokes_json] at h
    | null => simp [GLCanvas.import_strokes_json] at h
    | arr xs => simp [GLCanvas.import_strokes_json] at h
    | obj fields =>
      rw [GLCanvas.import_strokes_json] at h ⊢
      split at h
      · simp at h
      · split at h
        · simp at h
        · split at h
          · simp at h
          · split at h
            · simp at h
            · rename_i ss hss
              intro s hs
              exact mapOpt_is_visible _ _ hss s hs

/-- Witness for C10: importing a snapshot whose stroke was exported with
`base_alpha = 0` succeeds and yields a stroke with `is_visible = true`. -/
theorem c10_witness :
    (GLCanvas.import_strokes_json (some alphaZeroSnapshot) (GLCanvas.init : GLCanvas ℚ)).2 = true ∧
    ∀ s ∈ (GLCanvas.import_strokes_json (some alphaZeroSnapshot)
        (GLCanvas.init : GLCanvas ℚ)).1.strokes, s.is_visible = true :=
  ⟨by decide,
   c10_imported_strokes_not_retired ℚ (some alphaZeroSnapshot) GLCanvas.init (by decide)⟩

/-- A serialized point decodes back to itself. -/
theorem jsonToPoint?_pointToJson {α : Type} (p : α × α × α) :
    jsonToPoint? (pointToJson p) = some p := rfl

/-- A pointwise decode/encode inverse lifts through the comprehension
semantics. -/
theorem mapOpt_map_eq_some {β γ δ : Type} (f : β → δ) (g : δ → Option γ) (k : β → γ)
    (hfg : ∀ x, g (f x) = some (k x)) (l : List β) :
    mapOpt g (l.map f) = some (l.map k) := by
  induction l with
  | nil => rfl
  | cons x xs ih => simp [mapOpt, hfg, ih]

/-- The high-water-mark pass reads back exactly the serialized creation
time. -/
theorem strokeTime?_strokeToJson {α : Type} [LinearOrderedField α] (s : Stroke α) :
    strokeTime? (strokeToJson s) = some s.time_created := rfl

/-- A serialized stroke decodes back to itself, with the retirement flag
reset to the dataclass default. -/
theorem jsonToStroke?_strokeToJson {α : Type} [LinearOrderedField α] (s : Stroke α) :
    jsonToStroke? (strokeToJson s) = some { s with is_visible := true } := by
  have hpts : mapOpt jsonToPoint? (s.points.map pointToJson) = some (s.points.map id) :=
    mapOpt_map_eq_some pointToJson jsonToPoint? id (fun p => rfl) s.points
  rw [List.map_id] at hpts
  show (mapOpt jsonToPoint? (s.points.map pointToJson)).bind _ = _
  rw [hpts]
  rfl

/-- C4: export followed by import is the identity on the serialized state —
the import succeeds, reproduces the same `virtual_time`, and rebuilds the
stroke list with identical points, width, color, creation time (and stored
alpha) for each stroke in the same order; only the unserialized retirement
flag is reset to `true`. -/
theorem c4_export_import_round_trip (α : Type) [inst : LinearOrderedField α]
    (st prior : GLCanvas α) :
    (GLCanvas.import_strokes_json (some (GLCanvas.export_strokes_json st)) prior).2 = true ∧
    (GLCanvas.import_strokes_json (some (GLCanvas.export_strokes_json st)) prior).1.virtual_time
      = st.virtual_time ∧
    (GLCanvas.import_strokes_json (some (GLCanvas.export_strokes_json st)) prior).1.strokes
      = st.strokes.map (fun s => { s with is_visible := true }) := by
  have htimes : mapOpt strokeTime? (st.strokes.map strokeToJson)
      = some (st.strokes.map Stroke.time_created) :=
    mapOpt_map_eq_some strokeToJson strokeTime? Stroke.time_created
      (fun s => rfl) st.strokes
  have hstrokes : mapOpt jsonToStroke? (st.strokes.map strokeToJson)
      = some (st.strokes.map (fun s => { s with is_visible := true })) :=
    mapOpt_map_eq_some strokeToJson jsonToStroke? (fun s => { s with is_visible := true })
      jsonToStroke?_strokeToJson st.strokes
  rw [GLCanvas.export_strokes_json, GLCanvas.import_strokes_json]
  simp only [jlookup, asNum?, asArr?, String.reduceEq, reduceIte]
  rw [htimes, hstrokes]
  exact ⟨rfl, rfl, rfl⟩

/-- Witness for C4 at a concrete state: round-tripping `stRound` (one
partly-decayed, retired stroke at virtual time 2) succeeds and restores its
`virtual_time`. -/
theorem c4_witness :
    (GLCanvas.import_strokes_json (some (GLCanvas.export_strokes_json stRound))
        (GLCanvas.init : GLCanvas ℚ)).2 = true ∧
    (GLCanvas.import_strokes_json (some (GLCanvas.export_strokes_json stRound))
        (GLCanvas.init : GLCanvas ℚ)).1.virtual_time = stRound.virtual_time :=
  ⟨(c4_export_import_round_trip ℚ stRound GLCanvas.init).1,
   (c4_export_import_round_trip ℚ stRound GLCanvas.init).2.1⟩

/-- The segments produced by the scan loop concatenate, in order, to the
current segment followed by all remaining indices. -/
theorem seg_loop_flatten {α : Type} [LinearOrder α] (rest : List α) (i : ℕ) (prev : α)
    (cur : List ℕ) :
    (TimelineWidget.seg_loop rest i prev cur).flatten = cur ++ List.range' i rest.length := by
  induction rest generalizing i prev cur with
  | nil => simp [TimelineWidget.seg_loop]
  | cons t r ih =>
    by_cases h : t < prev
    · simp [TimelineWidget.seg_loop, h, ih, List.range'_succ]
    · simp [TimelineWidget.seg_loop, h, ih, List.range'_succ]

/-- The scan loop never emits an empty segment. -/
theorem seg_loop_ne_nil {α : Type} [LinearOrder α] (rest : List α) (i : ℕ) (prev : α)
    (cur : List ℕ) (hcur : cur ≠ []) :
    ∀ seg ∈ TimelineWidget.seg_loop rest i prev cur, seg ≠ [] := by
  induction rest generalizing i prev cur with
  | nil =>
    intro seg hseg
    rw [TimelineWidget.seg_loop, List.mem_singleton] at hseg
    exact hseg ▸ hcur
  | cons t r ih =>
    intro seg hseg
    rw [TimelineWidget.seg_loop] at hseg
    by_cases h : t < prev
    · rw [if_pos h, List.mem_cons] at hseg
      rcases hseg with rfl | hseg
      · exact hcur
      · exact ih (i + 1) t [i] (by simp) seg hseg
    · rw [if_neg h] at hseg
      exact ih (i + 1) t (cur ++ [i]) (by simp) seg hseg

/-- The first indices of the emitted segments are the head of the current
segment followed by exactly the strict-descent positions of the remaining
times. -/
theorem seg_loop_heads {α : Type} [LinearOrder α] (rest : List α) (i : ℕ) (prev : α)
    (c : ℕ) (cur : List ℕ) :
    (TimelineWidget.seg_loop rest i prev (c :: cur)).filterMap List.head? =
      c :: spec_run_starts prev rest i := by
  induction rest generalizing i prev c cur with
  | nil => simp [TimelineWidget.seg_loop, spec_run_starts]
  | cons t r ih =>
    by_cases h : t < prev
    · rw [TimelineWidget.seg_loop, if_pos h, spec_run_starts, if_pos h]
      rw [List.filterMap_cons]
      simp only [List.head?_cons]
      rw [ih (i + 1) t i []]
    · rw [TimelineWidget.seg_loop, if_neg h, spec_run_starts, if_neg h]
      have hsh : (c :: cur) ++ [i] = c :: (cur ++ [i]) := rfl
      rw [hsh, ih]

/-- C6: world-line segmentation partitions the index list `0..n-1` in order
into non-empty segments (their concatenation is exactly `range n`), and a
segment starts exactly at index 0 and at each position whose creation time
is strictly smaller than its predecessor (`spec_run_starts`, the spec's
"a strictly smaller next time starts a new segment") — so within a segment
every next time is ≥ the previous one; in particular the creation times
`[1, 2, 3, 1, 2]` produce exactly the two segments `{0, 1, 2}` and
`{3, 4}`. -/
theorem c6_world_line_segmentation :
    (∀ (α : Type) [inst : LinearOrder α] (times : List α),
        (TimelineWidget.calc_segments times).flatten = List.range times.length ∧
        (∀ seg ∈ TimelineWidget.calc_segments times, seg ≠ []) ∧
        (TimelineWidget.calc_segments times).filterMap List.head? =
          (match times with
           | [] => []
           | t0 :: rest => 0 :: spec_run_starts t0 rest 1)) ∧
    TimelineWidget.calc_segments ([1, 2, 3, 1, 2] : List ℚ) = [[0, 1, 2], [3, 4]] := by
  constructor
  · intro α inst times
    cases times with
    | nil => exact ⟨rfl, by simp [TimelineWidget.calc_segments], rfl⟩
    | cons t0 rest =>
      refine ⟨?_, ?_, ?_⟩
      · rw [TimelineWidget.calc_segments, seg_loop_flatten, List.range_eq_range']
        rw [List.length_cons, List.range'_succ]
        rfl
      · exact seg_loop_ne_nil rest 1 t0 [0] (by simp)
      · exact seg_loop_heads rest 1 t0 0 []
  · decide

/-- Witness for C6 at the concrete input named by the spec: the segments of
`[1, 2, 3, 1, 2]` flatten to `range 5`, and the segment `[3, 4]` (when it
occurs) is non-empty. -/
theorem c6_witness :
    (TimelineWidget.calc_segments ([1, 2, 3, 1, 2] : List ℚ)).flatten = List.range 5 ∧
    ([3, 4] ∈ TimelineWidget.calc_segments ([1, 2, 3, 1, 2] : List ℚ) →
      ([3, 4] : List ℕ) ≠ []) := by
  constructor
  · exact (c6_world_line_segmentation.1 ℚ [1, 2, 3, 1, 2]).1
  · intro hm
    exact (c6_world_line_segmentation.1 ℚ [1, 2, 3, 1, 2]).2.1 [3, 4] hm

/-- When every stroke fails the retirement/time/point-count pre-filter, the
rasterizer receives no geometry at all. -/
theorem render_verts_eq_nil (cw ch vt : ℝ) (strokes : List (Stroke ℝ))
    (h : ∀ s ∈ strokes, s.is_visible = false ∨ vt < s.time_created ∨ s.points.length < 2) :
    render_verts cw ch vt strokes = [] := by
  induction strokes with
  | nil => rfl
  | cons s rest ih =>
    have hr : render_verts cw ch vt rest = [] :=
      ih (fun x hx => h x (List.mem_cons_of_mem s hx))
    have hs := h s (List.mem_cons_self s rest)
    have hhead : (if s.is_visible = false then ([] : List ℝ)
        else if vt < s.time_created then []
        else if s.points.length < 2 then []
        else seg_verts cw ch (s.width / 2) s.points) = [] := by
      rcases hs with h1 | h1 | h1
      · rw [if_pos h1]
      · by_cases hv : s.is_visible = false
        · rw [if_pos hv]
        · rw [if_neg hv, if_pos h1]
      · by_cases hv : s.is_visible = false
        · rw [if_pos hv]
        · by_cases ht : vt < s.time_created
          · rw [if_neg hv, if_pos ht]
          · rw [if_neg hv, if_neg ht, if_pos h1]
    show (if s.is_visible = false then ([] : List ℝ)
        else if vt < s.time_created then []
        else if s.points.length < 2 then []
        else seg_verts cw ch (s.width / 2) s.points) ++ render_verts cw ch vt rest = []
    rw [hhead, hr]
    rfl

/-- C7: the scalar density the controller consumes is in `[0, 1]` for every
stroke configuration, virtual time, viewport and read-back buffer; and in
the degenerate cases — an empty stroke set, or no stroke passing the
retirement/time/point-count filters — it equals 0 exactly. -/
theorem c7_density_bounded (buf : ℕ → ℝ) (cw ch vt : ℝ) (strokes : List (Stroke ℝ)) :
    (0 ≤ global_density (render_density_map buf cw ch vt strokes) ∧
     global_density (render_density_map buf cw ch vt strokes) ≤ 1) ∧
    (strokes = [] → global_density (render_density_map buf cw ch vt strokes) = 0) ∧
    ((∀ s ∈ strokes, s.is_visible = false ∨ vt < s.time_created ∨ s.points.length < 2) →
      global_density (render_density_map buf cw ch vt strokes) = 0) := by
  refine ⟨?_, ?_, ?_⟩
  · rw [render_density_map]
    by_cases he : (render_verts cw ch vt strokes).isEmpty
    · rw [if_pos he]
      simp [global_density]
    · rw [if_neg he]
      set cells := (List.range (density_h * density_w)).map (fun i => max 0 (min (buf i) 1))
        with hcells
      have hlen : (cells.length : ℝ) = (density_h * density_w : ℕ) := by
        rw [hcells, List.length_map, List.length_range]
      have hpos : (0 : ℝ) < (cells.length : ℝ) := by
        rw [hlen]
        norm_num [density_h, density_w]
      have hnn : ∀ x ∈ cells, (0 : ℝ) ≤ x := by
        intro x hx
        rw [hcells, List.mem_map] at hx
        obtain ⟨i, -, rfl⟩ := hx
        exact le_max_left _ _
      have hub : ∀ x ∈ cells, x ≤ (1 : ℝ) := by
        intro x hx
        rw [hcells, List.mem_map] at hx
        obtain ⟨i, -, rfl⟩ := hx
        exact max_le (by norm_num) (min_le_right _ _)
      constructor
      · exact div_nonneg (List.sum_nonneg hnn) hpos.le
      · rw [global_density, div_le_one hpos]
        have hsum := List.sum_le_card_nsmul cells 1 hub
        simpa using hsum
  · rintro rfl
    rw [render_density_map, show render_verts cw ch vt ([] : List (Stroke ℝ)) = [] from rfl]
    rfl
  · intro h
    rw [render_density_map, render_verts_eq_nil cw ch vt strokes h]
    rfl

/-- Witness for C7: with an empty stroke set (and a buffer of garbage
values), the density is exactly 0 and in particular non-negative. -/
theorem c7_witness :
    global_density (render_density_map (fun _ => 37) 1 1 0 []) = 0 ∧
    0 ≤ global_density (render_density_map (fun _ => 37) 1 1 0 []) :=
  ⟨(c7_density_bounded (fun _ => 37) 1 1 0 []).2.1 rfl,
   (c7_density_bounded (fun _ => 37) 1 1 0 []).1.1⟩

/-- For a visible stroke of non-negative age, the decay step writes exactly
the floored exponential into `base_alpha`. -/
theorem decay_stroke_base_alpha (lam now : ℝ) (s : Stroke ℝ) (hvis : s.is_visible = true)
    (hage : 0 ≤ now - s.time_created) :
    (decay_stroke lam now s).base_alpha =
      if Real.exp (-(lam * (now - s.time_created))) < 0.001 then 0
      else Real.exp (-(lam * (now - s.time_created))) := by
  have hnv : (s.is_visible = false) = False := by simp [hvis]
  have hneg : (now - s.time_created < 0) = False := by simp [not_lt.mpr hage]
  rw [decay_stroke]
  simp only [hnv, hneg, if_false]
  rw [apply_ite Stroke.base_alpha]

/-- A visible stroke decayed at its own creation time gets alpha exactly 1
and stays eligible (not retired). -/
theorem decay_stroke_at_creation (lam : ℝ) (s : Stroke ℝ) (hvis : s.is_visible = true) :
    (decay_stroke lam s.time_created s).base_alpha = 1 ∧
    (decay_stroke lam s.time_created s).is_visible = true := by
  have hnv : (s.is_visible = false) = False := by simp [hvis]
  rw [decay_stroke]
  simp only [hnv, if_false, sub_self, lt_self_iff_false, mul_zero, neg_zero, Real.exp_zero]
  rw [if_neg (by norm_num : ¬ (1 : ℝ) < 0.001)]
  exact ⟨rfl, hvis⟩

/-- For a fixed non-negative effective decay rate, the written alpha is
antitone in the stroke's age. -/
theorem decay_stroke_alpha_antitone (lam : ℝ) (hlam : 0 ≤ lam) (s : Stroke ℝ)
    (hvis : s.is_visible = true) (a1 a2 : ℝ) (h1 : 0 ≤ a1) (h12 : a1 ≤ a2) :
    (decay_stroke lam (s.time_created + a2) s).base_alpha ≤
      (decay_stroke lam (s.time_created + a1) s).base_alpha := by
  have hA1 : (0 : ℝ) ≤ s.time_created + a1 - s.time_created := by
    rw [add_sub_cancel_left]
    exact h1
  have hA2 : (0 : ℝ) ≤ s.time_created + a2 - s.time_created := by
    rw [add_sub_cancel_left]
    exact le_trans h1 h12
  rw [decay_stroke_base_alpha lam _ s hvis hA2, decay_stroke_base_alpha lam _ s hvis hA1,
      add_sub_cancel_left, add_sub_cancel_left]
  have hexp : Real.exp (-(lam * a2)) ≤ Real.exp (-(lam * a1)) :=
    Real.exp_le_exp.mpr (neg_le_neg (mul_le_mul_of_nonneg_left h12 hlam))
  by_cases hc1 : Real.exp (-(lam * a1)) < 0.001
  · rw [if_pos hc1, if_pos (lt_of_le_of_lt hexp hc1)]
  · by_cases hc2 : Real.exp (-(lam * a2)) < 0.001
    · rw [if_pos hc2, if_neg hc1]
      exact (Real.exp_pos _).le
    · rw [if_neg hc2, if_neg hc1]
      exact hexp

/-- C8: for a fixed `lambda_factor` (any controller output, hence any
effective decay rate `lambda_base * factor` the engine can use), the
computed alpha of a visible stroke is monotone non-increasing in its age —
for ages `0 ≤ age1 < age2` the alpha at `age2` is at most the alpha at
`age1` — and at age 0 the alpha equals `1.0` exactly. -/
theorem c8_decay_monotone_in_age (t hb k d a1 a2 : ℝ) (s : Stroke ℝ)
    (hvis : s.is_visible = true) (h1 : 0 ≤ a1) (h12 : a1 < a2) :
    (decay_stroke ((GLCanvas.init : GLCanvas ℝ).lambda_base * controller_update t hb k d)
        (s.time_created + a2) s).base_alpha ≤
      (decay_stroke ((GLCanvas.init : GLCanvas ℝ).lambda_base * controller_update t hb k d)
        (s.time_created + a1) s).base_alpha ∧
    (decay_stroke ((GLCanvas.init : GLCanvas ℝ).lambda_base * controller_update t hb k d)
        s.time_created s).base_alpha = 1 := by
  have hfac : (0 : ℝ) ≤ controller_update t hb k d :=
    le_trans (by norm_num) (controller_update_mem t hb k d).1
  have hlam : (0 : ℝ) ≤ (GLCanvas.init : GLCanvas ℝ).lambda_base * controller_update t hb k d := by
    rw [show (GLCanvas.init : GLCanvas ℝ).lambda_base = 0.1 from rfl]
    exact mul_nonneg (by norm_num) hfac
  exact ⟨decay_stroke_alpha_antitone _ hlam s hvis a1 a2 h1 h12.le,
         (decay_stroke_at_creation _ s hvis).1⟩

/-- Witness for C8 at concrete ages 0 and 1 (dead-zone rate
`0.1 * 1.0`): the alpha at age 1 is at most the alpha at age 0, and the
alpha at age 0 is exactly 1. -/
theorem c8_witness :
    (decay_stroke ((GLCanvas.init : GLCanvas ℝ).lambda_base * controller_update 0.05 0.02 3 0.05)
        (strokeW8.time_created + 1) strokeW8).base_alpha ≤
      (decay_stroke ((GLCanvas.init : GLCanvas ℝ).lambda_base * controller_update 0.05 0.02 3 0.05)
        (strokeW8.time_created + 0) strokeW8).base_alpha ∧
    (decay_stroke ((GLCanvas.init : GLCanvas ℝ).lambda_base * controller_update 0.05 0.02 3 0.05)
        strokeW8.time_created strokeW8).base_alpha = 1 :=
  c8_decay_monotone_in_age 0.05 0.02 3 0.05 0 1 strokeW8 rfl le_rfl (by norm_num)

/-- The element written by a frame's decay pass at index `i`. -/
theorem frame_update_strokes_get (density : ℝ) (st : GLCanvas ℝ) (i : ℕ)
    (hi : i < st.strokes.length)
    (hi' : i < (GLCanvas.frame_update density st).strokes.length) :
    (GLCanvas.frame_update density st).strokes.get ⟨i, hi'⟩ =
      decay_stroke
        (st.lambda_base * controller_update st.target_density st.hysteresis st.lambda_k density)
        st.virtual_time (st.strokes.get ⟨i, hi⟩) := by
  rw [List.get_eq_getElem, List.get_eq_getElem]
  simp only [GLCanvas.frame_update, List.getElem_map]

/-- A paint frame never changes the number of strokes. -/
theorem paintEventStep_strokes_length (buf : ℕ → ℝ) (cw ch : ℝ) (st : GLCanvas ℝ) :
    (GLCanvas.paintEventStep buf cw ch st).strokes.length = st.strokes.length := by
  by_cases h : st.virtual_time < st.last_virtual_time <;>
    simp [GLCanvas.paintEventStep, GLCanvas.frame_update, GLCanvas.rewind_check, h]

/-- C3: on a frame whose virtual time is less than the previous frame's
(a rewind — in particular after a stroke has retired at a later time and
the user seeks back), every stroke's retirement flag is cleared before
decay is recomputed; and for any stroke whose creation time equals the
frame's virtual time (seeking back to exactly `T`), the frame reproduces
`base_alpha = 1.0` and `is_visible = true` for that stroke, whatever the
density buffer holds. -/
theorem c3_rewind_resurrects_and_restores (buf : ℕ → ℝ) (cw ch : ℝ) (st : GLCanvas ℝ)
    (hrw : st.virtual_time < st.last_virtual_time) :
    (∀ s ∈ (GLCanvas.rewind_check st).strokes, s.is_visible = true) ∧
    ∀ (i : ℕ) (hi : i < st.strokes.length)
      (hi' : i < (GLCanvas.paintEventStep buf cw ch st).strokes.length),
      (st.strokes.get ⟨i, hi⟩).time_created = st.virtual_time →
      ((GLCanvas.paintEventStep buf cw ch st).strokes.get ⟨i, hi'⟩).base_alpha = 1 ∧
      ((GLCanvas.paintEventStep buf cw ch st).strokes.get ⟨i, hi'⟩).is_visible = true := by
  have hres : (GLCanvas.rewind_check st).strokes =
      st.strokes.map (fun s => { s with is_visible := true }) := by
    rw [GLCanvas.rewind_check, if_pos hrw]
  have hvt1 : (GLCanvas.rewind_check st).virtual_time = st.virtual_time := by
    rw [GLCanvas.rewind_check, if_pos hrw]
  constructor
  · intro s hs
    rw [hres, List.mem_map] at hs
    obtain ⟨x, -, rfl⟩ := hs
    rfl
  · intro i hi hi' htc
    have hstep : GLCanvas.paintEventStep buf cw ch st =
        GLCanvas.frame_update
          (global_density (render_density_map buf cw ch (GLCanvas.rewind_check st).virtual_time
            (GLCanvas.rewind_check st).strokes))
          (GLCanvas.rewind_check st) := rfl
    have hlen1 : i < (GLCanvas.rewind_check st).strokes.length := by
      rw [hres, List.length_map]
      exact hi
    have hget1 : (GLCanvas.rewind_check st).strokes.get ⟨i, hlen1⟩ =
        { st.strokes.get ⟨i, hi⟩ with is_visible := true } := by
      rw [List.get_eq_getElem, List.get_eq_getElem]
      simp only [hres, List.getElem_map]
    have hi2 : i < (GLCanvas.frame_update
        (global_density (render_density_map buf cw ch (GLCanvas.rewind_check st).virtual_time
          (GLCanvas.rewind_check st).strokes))
        (GLCanvas.rewind_check st)).strokes.length := by
      rw [← hstep]
      exact hi'
    have hkey : (GLCanvas.paintEventStep buf cw ch st).strokes.get ⟨i, hi'⟩ =
        decay_stroke
          ((GLCanvas.rewind_check st).lambda_base *
            controller_update (GLCanvas.rewind_check st).target_density
              (GLCanvas.rewind_check st).hysteresis (GLCanvas.rewind_check st).lambda_k
              (global_density (render_density_map buf cw ch (GLCanvas.rewind_check st).virtual_time
                (GLCanvas.rewind_check st).strokes)))
          (GLCanvas.rewind_check st).virtual_time
          ({ st.strokes.get ⟨i, hi⟩ with is_visible := true }) := by
      rw [← hget1]
      exact frame_update_strokes_get _ (GLCanvas.rewind_check st) i hlen1 hi2
    rw [hkey, hvt1, ← htc]
    exact decay_stroke_at_creation _ ({ st.strokes.get ⟨i, hi⟩ with is_visible := true }) rfl

/-- Witness for C3: on `stRetired` (one retired stroke created at time 0,
previous frame at time 100, virtual time seeked back to 0), the rewind scan
clears the retirement flag, and the frame restores the stroke to
`base_alpha = 1` with `is_visible = true`. -/
theorem c3_witness :
    (∀ s ∈ (GLCanvas.rewind_check stRetired).strokes, s.is_visible = true) ∧
    ((GLCanvas.paintEventStep bufZero 1 1 stRetired).strokes.get
        ⟨0, by rw [paintEventStep_strokes_length]; norm_num [stRetired]⟩).base_alpha = 1 ∧
    ((GLCanvas.paintEventStep bufZero 1 1 stRetired).strokes.get
        ⟨0, by rw [paintEventStep_strokes_length]; norm_num [stRetired]⟩).is_visible = true := by
  have h := c3_rewind_resurrects_and_restores bufZero 1 1 stRetired
      (by norm_num [stRetired, GLCanvas.init])
  refine ⟨h.1, ?_⟩
  exact h.2 0 (by norm_num [stRetired]) (by rw [paintEventStep_strokes_length]; norm_num [stRetired])
    (by norm_num [stRetired, GLCanvas.init])
